import Mathlib

/-!
Verification of `src/TNB_rate.py` (SmartEV): a generator of a synthetic
TNB time-of-use electricity price table.

Modelling choices, faithful to the Python source:

* A timestamp is the number of minutes since 1970-01-01 00:00 (an `Int`).
  pandas timestamps are naive and minute-aligned here, so this is exact.
  `dayofweek` (Monday = 0 … Sunday = 6) and `hour` (0–23) are derived by
  calendar arithmetic: 1970-01-01 was a Thursday (index 3).
* `pd.to_datetime(start_date)` either parses or raises; the parsed start is
  modelled as `Option Int` (`none` = unparseable string).
* `pd.date_range(start, end, freq)` with a fixed-minutes frequency
  enumerates `start + step * i` and contains every point between `start`
  and `end` inclusive: `max 0 ((end - start).fdiv step + 1)` points
  (`fdiv` = Python floor division, as in pandas' internal
  `(end - start) // stride + 1`); it is empty when `end < start` with a
  positive step, and constructing the range with a zero step raises.
* Prices are the exact two-decimal values 34.43 and 38.52 sen/kWh, stored
  in fixed point as hundredths of a sen (`3443` and `3852`); the program
  never computes with prices, it only stores one of the two constants.
-/

/-- Off-peak price: 34.43 sen/kWh, in hundredths of a sen
(`PRICE_OFF_PEAK = 34.43`). -/
def PRICE_OFF_PEAK : Int := 3443

/-- Peak price: 38.52 sen/kWh, in hundredths of a sen
(`PRICE_PEAK = 38.52`). -/
def PRICE_PEAK : Int := 3852

/-- Start of weekday peak hours (`PEAK_START_HOUR = 14`). -/
def PEAK_START_HOUR : Int := 14

/-- End of weekday peak hours (`PEAK_END_HOUR = 22`). -/
def PEAK_END_HOUR : Int := 22

/-- One row of the generated DataFrame: the `Timestamp` index plus the
columns `Price_sen_per_kWh` (in hundredths of a sen), `DayOfWeek`,
`Hour`. -/
structure Row where
  timestamp : Int
  price : Int
  dayOfWeek : Int
  hour : Int
deriving DecidableEq, Repr

/-- `timestamp.dayofweek` of a minutes-since-epoch timestamp:
Monday = 0 … Sunday = 6 (1970-01-01 is a Thursday, index 3). -/
def dayofweek (t : Int) : Int := (t / 1440 + 3) % 7

/-- `timestamp.hour` of a minutes-since-epoch timestamp (0–23). -/
def hourOfDay (t : Int) : Int := t % 1440 / 60

/-- Days from 1970-01-01 to the Gregorian civil date y-m-d
(Hinnant's `days_from_civil`, written with floor division). -/
def daysFromCivil (y m d : Int) : Int :=
  let yy := y - (if m ≤ 2 then 1 else 0)
  let era := Int.fdiv yy 400
  let yoe := yy - era * 400
  let doy := (153 * (m + (if 2 < m then -3 else 9)) + 2) / 5 + d - 1
  let doe := yoe * 365 + yoe / 4 - yoe / 100 + doy
  era * 146097 + doe - 719468

/-- Minutes-since-epoch timestamp of the civil date y-m-d at hh:mi:00. -/
def mkTs (y m d hh mi : Int) : Int :=
  daysFromCivil y m d * 1440 + hh * 60 + mi

/-- Number of points of `pd.date_range(start=startT, end=endT, freq=step)`:
all points `startT + step * i` lying between `startT` and `endT` inclusive,
i.e. `(endT - startT) // step + 1` when nonnegative (pandas computes this
with Python floor division on the nanosecond stride), else empty. -/
def numPoints (startT endT step : Int) : Nat :=
  (max 0 (Int.fdiv (endT - startT) step + 1)).toNat

/-- The time index `pd.date_range(start=startT, end=endT, freq=step)`. -/
def date_range (startT endT step : Int) : List Int :=
  (List.range (numPoints startT endT step)).map
    (fun i : Nat => startT + step * (i : Int))

/-- The price rule of the loop body: weekends (`day_of_week >= 5`) are
off-peak all day; weekdays are peak for `14 <= hour < 22`, else off-peak. -/
def priceFor (dow hour : Int) : Int :=
  if 5 ≤ dow then PRICE_OFF_PEAK
  else if PEAK_START_HOUR ≤ hour ∧ hour < PEAK_END_HOUR then PRICE_PEAK
  else PRICE_OFF_PEAK

/-- The DataFrame row built for one timestamp of the time index. -/
def mkRow (t : Int) : Row :=
  { timestamp := t
    price := priceFor (dayofweek t) (hourOfDay t)
    dayOfWeek := dayofweek t
    hour := hourOfDay t }

/-- The runtime failures `generate_tnb_tou_data` can surface:
`pd.to_datetime` raising on an unparseable `start_date`, or
`pd.date_range` raising on a zero-minute frequency. -/
inductive GenError where
  | parseError : GenError
  | zeroStep : GenError
deriving DecidableEq, Repr

/-- `generate_tnb_tou_data(start_date, num_days, time_step_minutes)`:
`end_date = to_datetime(start_date) + num_days days - time_step_minutes`,
`time_index = date_range(start_date, end_date, freq)`, and one row per
index point carrying price, day-of-week and hour. -/
def generate_tnb_tou_data (start_date : Option Int) (num_days : Int)
    (time_step_minutes : Int := 15) : Except GenError (List Row) :=
  match start_date with
  | none => .error .parseError
  | some startT =>
    if time_step_minutes = 0 then .error .zeroStep
    else
      let end_date := startT + 1440 * num_days - time_step_minutes
      .ok ((date_range startT end_date time_step_minutes).map mkRow)

/-- The table produced on success (the empty table on failure). -/
def theTable (start_date : Option Int) (num_days : Int)
    (time_step_minutes : Int := 15) : List Row :=
  match generate_tnb_tou_data start_date num_days time_step_minutes with
  | .ok rows => rows
  | .error _ => []

/-- Whether the run raised instead of returning a table. -/
def isError : Except GenError (List Row) → Bool
  | .error _ => true
  | .ok _ => false

/-- On any parseable start and nonzero step, generation succeeds and the
table is one `mkRow` per point of the time index. -/
theorem generate_ok (startT d s : Int) (hs : s ≠ 0) :
    generate_tnb_tou_data (some startT) d s =
      .ok ((date_range startT (startT + 1440 * d - s) s).map mkRow) := by
  simp [generate_tnb_tou_data, hs]

/-- Every row of a successfully generated table is `mkRow` of some
timestamp of the time index. -/
theorem mem_generate {startT d s : Int} {rows : List Row} {r : Row}
    (hg : generate_tnb_tou_data (some startT) d s = .ok rows) (hr : r ∈ rows) :
    ∃ t, r = mkRow t := by
  by_cases hs : s = 0
  · rw [hs] at hg
    simp [generate_tnb_tou_data] at hg
  · rw [generate_ok startT d s hs] at hg
    injection hg with h
    subst h
    obtain ⟨t, _, ht⟩ := List.mem_map.mp hr
    exact ⟨t, ht.symm⟩

/-- The table on valid inputs is exactly the successful result. -/
theorem theTable_eq (startT d s : Int) (hs : s ≠ 0) :
    theTable (some startT) d s =
      (date_range startT (startT + 1440 * d - s) s).map mkRow := by
  unfold theTable
  rw [generate_ok startT d s hs]

/-- For a positive day count and step, the time index of the run has
exactly `d * 1440 / s` points (integer division, rounding down). -/
theorem numPoints_of_pos (startT d s : Int) (hd : 0 < d) (hs : 0 < s) :
    numPoints startT (startT + 1440 * d - s) s = (d * 1440 / s).toNat := by
  unfold numPoints
  have e1 : startT + 1440 * d - s - startT = d * 1440 + -1 * s := by ring
  rw [e1, Int.fdiv_eq_ediv _ (le_of_lt hs),
    Int.add_mul_ediv_right _ _ (by omega : s ≠ 0)]
  have e2 : d * 1440 / s + -1 + 1 = d * 1440 / s := by ring
  rw [e2, max_eq_right (Int.ediv_nonneg (by omega) (le_of_lt hs))]

/-- C1: for parseable start, positive `num_days` and positive
`time_step_minutes`, generation succeeds and the returned table has exactly
`num_days * 1440 / time_step_minutes` rows (integer division, rounding
down when the step does not divide `num_days * 1440`). -/
theorem C1_row_count (startT d s : Int) (hd : 0 < d) (hs : 0 < s) :
    generate_tnb_tou_data (some startT) d s = .ok (theTable (some startT) d s) ∧
    (theTable (some startT) d s).length = (d * 1440 / s).toNat := by
  have hs0 : s ≠ 0 := by omega
  have ht := theTable_eq startT d s hs0
  refine ⟨by rw [generate_ok startT d s hs0, ht], ?_⟩
  rw [ht]
  simp only [List.length_map, date_range, List.length_range]
  exact numPoints_of_pos startT d s hd hs

/-- C2: on every weekday row (`day_of_week < 5`, hence in {0,…,4}), the
price is 38.52 when `14 ≤ hour < 22` and 34.43 otherwise. -/
theorem C2_weekday_price_rule (startT d s : Int) (rows : List Row) (r : Row)
    (hg : generate_tnb_tou_data (some startT) d s = .ok rows)
    (hr : r ∈ rows) (hwd : r.dayOfWeek < 5) :
    r.price = if 14 ≤ r.hour ∧ r.hour < 22 then PRICE_PEAK else PRICE_OFF_PEAK := by
  obtain ⟨t, rfl⟩ := mem_generate hg hr
  simp only [mkRow] at hwd ⊢
  unfold priceFor PEAK_START_HOUR PEAK_END_HOUR
  rw [if_neg (by omega)]

/-- C3: on every weekend row (`day_of_week` 5 or 6), the price is 34.43
regardless of the hour. -/
theorem C3_weekend_price (startT d s : Int) (rows : List Row) (r : Row)
    (hg : generate_tnb_tou_data (some startT) d s = .ok rows)
    (hr : r ∈ rows) (hwd : r.dayOfWeek = 5 ∨ r.dayOfWeek = 6) :
    r.price = PRICE_OFF_PEAK := by
  obtain ⟨t, rfl⟩ := mem_generate hg hr
  simp only [mkRow] at hwd ⊢
  unfold priceFor
  rw [if_pos (by omega)]

/-- C4: every row's price is one of the two constants 34.43 and 38.52, and
it is the deterministic function `priceFor` of the row's day-of-week and
hour alone. -/
theorem C4_price_invariant (startT d s : Int) (rows : List Row) (r : Row)
    (hg : generate_tnb_tou_data (some startT) d s = .ok rows)
    (hr : r ∈ rows) :
    (r.price = PRICE_OFF_PEAK ∨ r.price = PRICE_PEAK) ∧
    r.price = priceFor r.dayOfWeek r.hour := by
  obtain ⟨t, rfl⟩ := mem_generate hg hr
  refine ⟨?_, rfl⟩
  simp only [mkRow, priceFor]
  split
  · exact Or.inl rfl
  · split
    · exact Or.inr rfl
    · exact Or.inl rfl

/-- C5: timestamps of a generated table are strictly increasing (hence
unique), and each consecutive pair differs by exactly the step. -/
theorem C5_uniform_grid (startT d s : Int) (hs : 0 < s) (rows : List Row)
    (hg : generate_tnb_tou_data (some startT) d s = .ok rows)
    (i : Nat) (hi : i + 1 < rows.length) :
    rows.Pairwise (fun a b => a.timestamp < b.timestamp) ∧
    (rows.get ⟨i + 1, hi⟩).timestamp =
      (rows.get ⟨i, Nat.lt_of_succ_lt hi⟩).timestamp + s := by
  rw [generate_ok startT d s (by omega)] at hg
  injection hg with h
  subst h
  constructor
  · unfold date_range
    rw [List.pairwise_map, List.pairwise_map]
    refine (List.pairwise_lt_range _).imp ?_
    intro a b hab
    simp only [mkRow]
    have hab' : (a : Int) < b := by exact_mod_cast hab
    have := mul_lt_mul_of_pos_left hab' hs
    omega
  · simp only [date_range, List.get_eq_getElem, List.getElem_map,
      List.getElem_range, mkRow]
    push_cast
    ring

/-- C6 counterexample: at `num_days = 0` (parseable start, positive step)
the claim demands a failure, but the code raises nothing and returns an
empty table. -/
theorem C6_counterexample :
    generate_tnb_tou_data (some 0) 0 15 = .ok [] ∧
    isError (generate_tnb_tou_data (some 0) 0 15) = false :=
  ⟨rfl, rfl⟩

/-- C6 (amended): generation fails exactly when the start date is
unparseable or the step is zero; a non-positive `num_days` is not
rejected. -/
theorem C6_error_conditions (sd : Option Int) (d s : Int) :
    isError (generate_tnb_tou_data sd d s) = true ↔ (sd = none ∨ s = 0) := by
  cases sd with
  | none => simp [generate_tnb_tou_data, isError]
  | some t =>
    by_cases hs : s = 0 <;>
      simp [generate_tnb_tou_data, isError, hs]

/-- C7: the concrete scenario start 2025-01-06 00:00 (a Monday),
`num_days = 1`, `time_step_minutes = 15`: 96 rows; the 00:00 row has price
34.43, day-of-week 0, hour 0; 14:00 and 21:45 are priced 38.52; 22:00 is
priced 34.43. -/
theorem C7_concrete_scenario :
    (theTable (some (mkTs 2025 1 6 0 0)) 1 15).length = 96 ∧
    (theTable (some (mkTs 2025 1 6 0 0)) 1 15).find?
        (fun r => r.timestamp == mkTs 2025 1 6 0 0) =
      some { timestamp := mkTs 2025 1 6 0 0, price := PRICE_OFF_PEAK,
             dayOfWeek := 0, hour := 0 } ∧
    (((theTable (some (mkTs 2025 1 6 0 0)) 1 15).find?
        (fun r => r.timestamp == mkTs 2025 1 6 14 0)).map Row.price) =
      some PRICE_PEAK ∧
    (((theTable (some (mkTs 2025 1 6 0 0)) 1 15).find?
        (fun r => r.timestamp == mkTs 2025 1 6 21 45)).map Row.price) =
      some PRICE_PEAK ∧
    (((theTable (some (mkTs 2025 1 6 0 0)) 1 15).find?
        (fun r => r.timestamp == mkTs 2025 1 6 22 0)).map Row.price) =
      some PRICE_OFF_PEAK := by
  decide

/-- C8: every row's day-of-week and hour columns are the calendar
day-of-week (Monday = 0 … Sunday = 6) and hour-of-day (0–23) of the row's
timestamp. -/
theorem C8_derived_columns (startT d s : Int) (rows : List Row) (r : Row)
    (hg : generate_tnb_tou_data (some startT) d s = .ok rows)
    (hr : r ∈ rows) :
    r.dayOfWeek = dayofweek r.timestamp ∧ r.hour = hourOfDay r.timestamp ∧
    0 ≤ r.dayOfWeek ∧ r.dayOfWeek ≤ 6 ∧ 0 ≤ r.hour ∧ r.hour ≤ 23 := by
  obtain ⟨t, rfl⟩ := mem_generate hg hr
  refine ⟨rfl, rfl, ?_, ?_, ?_, ?_⟩ <;>
    simp only [mkRow, dayofweek, hourOfDay] <;> omega

/-- C9: generation is a pure function of its three inputs: identical
inputs give identical tables. -/
theorem C9_deterministic (sd1 sd2 : Option Int) (d1 d2 s1 s2 : Int)
    (h1 : sd1 = sd2) (h2 : d1 = d2) (h3 : s1 = s2) :
    generate_tnb_tou_data sd1 d1 s1 = generate_tnb_tou_data sd2 d2 s2 := by
  rw [h1, h2, h3]

/-- C10: for `num_days ≤ 0` with a parseable start and positive step, no
error is raised and the table is empty. -/
theorem C10_nonpositive_days_empty (startT d s : Int) (hd : d ≤ 0) (hs : 0 < s) :
    generate_tnb_tou_data (some startT) d s = .ok [] := by
  rw [generate_ok startT d s (by omega)]
  have hq : d * 1440 / s ≤ 0 := by
    rcases lt_or_eq_of_le (by omega : d * 1440 ≤ 0) with h | h
    · exact le_of_lt (Int.ediv_neg' h hs)
    · simp [h, Int.zero_ediv]
  have hlen : numPoints startT (startT + 1440 * d - s) s = 0 := by
    unfold numPoints
    have e1 : startT + 1440 * d - s - startT = d * 1440 + -1 * s := by ring
    rw [e1, Int.fdiv_eq_ediv _ (le_of_lt hs),
      Int.add_mul_ediv_right _ _ (by omega : s ≠ 0)]
    have e2 : d * 1440 / s + -1 + 1 = d * 1440 / s := by ring
    rw [e2, max_eq_left hq]
    rfl
  simp [date_range, hlen]

/-- Witness for C1: one Monday at 15-minute resolution has 96 rows. -/
theorem C1_witness :
    generate_tnb_tou_data (some 0) 1 15 = .ok (theTable (some 0) 1 15) ∧
    (theTable (some 0) 1 15).length = ((1 : Int) * 1440 / 15).toNat :=
  C1_row_count 0 1 15 (by decide) (by decide)

/-- Witness for C2: the Monday-midnight row obeys the weekday rule. -/
theorem C2_witness :
    (mkRow (mkTs 2025 1 6 0 0)).price =
      if 14 ≤ (mkRow (mkTs 2025 1 6 0 0)).hour ∧ (mkRow (mkTs 2025 1 6 0 0)).hour < 22
      then PRICE_PEAK else PRICE_OFF_PEAK :=
  C2_weekday_price_rule (mkTs 2025 1 6 0 0) 1 1440
    (theTable (some (mkTs 2025 1 6 0 0)) 1 1440) (mkRow (mkTs 2025 1 6 0 0))
    rfl (by decide) (by decide)

/-- Witness for C3: a Saturday row (2025-01-11) is off-peak. -/
theorem C3_witness :
    (mkRow (mkTs 2025 1 11 0 0)).price = PRICE_OFF_PEAK :=
  C3_weekend_price (mkTs 2025 1 11 0 0) 1 1440
    (theTable (some (mkTs 2025 1 11 0 0)) 1 1440) (mkRow (mkTs 2025 1 11 0 0))
    rfl (by decide) (Or.inl (by decide))

/-- Witness for C4: the epoch row's price is one of the two constants. -/
theorem C4_witness :
    ((mkRow 0).price = PRICE_OFF_PEAK ∨ (mkRow 0).price = PRICE_PEAK) ∧
    (mkRow 0).price = priceFor (mkRow 0).dayOfWeek (mkRow 0).hour :=
  C4_price_invariant 0 1 1440 (theTable (some 0) 1 1440) (mkRow 0)
    rfl (by decide)

/-- Witness for C5: a two-row table is increasing with gap 720. -/
theorem C5_witness :
    (theTable (some 0) 1 720).Pairwise (fun a b => a.timestamp < b.timestamp) ∧
    ((theTable (some 0) 1 720).get ⟨0 + 1, by decide⟩).timestamp =
      ((theTable (some 0) 1 720).get ⟨0, by decide⟩).timestamp + 720 :=
  C5_uniform_grid 0 1 720 (by decide) (theTable (some 0) 1 720) rfl 0 (by decide)

/-- Witness for C8: the epoch row's derived columns are consistent. -/
theorem C8_witness :
    (mkRow 0).dayOfWeek = dayofweek (mkRow 0).timestamp ∧
    (mkRow 0).hour = hourOfDay (mkRow 0).timestamp ∧
    0 ≤ (mkRow 0).dayOfWeek ∧ (mkRow 0).dayOfWeek ≤ 6 ∧
    0 ≤ (mkRow 0).hour ∧ (mkRow 0).hour ≤ 23 :=
  C8_derived_columns 0 1 1440 (theTable (some 0) 1 1440) (mkRow 0)
    rfl (by decide)

/-- Witness for C9: the default 30-day run equals itself. -/
theorem C9_witness :
    generate_tnb_tou_data (some (mkTs 2025 1 6 0 0)) 30 15 =
      generate_tnb_tou_data (some (mkTs 2025 1 6 0 0)) 30 15 :=
  C9_deterministic (some (mkTs 2025 1 6 0 0)) (some (mkTs 2025 1 6 0 0))
    30 30 15 15 rfl rfl rfl

/-- Witness for C10: `num_days = -1` gives an empty table, no error. -/
theorem C10_witness :
    generate_tnb_tou_data (some (mkTs 2025 1 6 0 0)) (-1) 60 = .ok [] :=
  C10_nonpositive_days_empty (mkTs 2025 1 6 0 0) (-1) 60 (by decide) (by decide)
